import Mathlib

/-!
Shallow embedding of `shogiutil/usiwrapcli.py`, the USI↔UCI protocol
translator.  Python strings are modelled as lists of Unicode codepoints
(`List Nat`); a tokenized command line is a `List (List Nat)`.  Python
operations that can raise are modelled with `Option`; the `try/except`
blocks of the source become `Option.getD`-style fallbacks.  Numeric-string
handling (`str.isdigit`, `int(...)`, `str(...)`) is modelled over ASCII
digits; the source's acceptance of non-ASCII Unicode digits is outside the
scope of the claims checked here.
-/

/-- Codepoint model of Python `chr`: valid for `0 ≤ n ≤ 0x10FFFF`, raises
(`none`) otherwise. -/
def pyChr (n : Int) : Option Nat :=
  if 0 ≤ n ∧ n ≤ 1114111 then some n.toNat else none

/-- Python `s.split(sep)` for a one-character separator: never returns an
empty list; empty input gives `[[]]` (Python `''.split(' ') == ['']`). -/
def splitChar (sep : Nat) : List Nat → List (List Nat)
  | [] => [[]]
  | c :: rest =>
    match splitChar sep rest with
    | [] => [[]]
    | h :: t => if c = sep then [] :: h :: t else (c :: h) :: t

/-- Python `sep.join(parts)` for a one-character separator. -/
def joinChar (sep : Nat) : List (List Nat) → List Nat
  | [] => []
  | [x] => x
  | x :: y :: t => x ++ sep :: joinChar sep (y :: t)

/-- Decimal digits of `n`, most significant first (Python `str(n)` for
`n ≥ 0`); fuelled recursion, `n + 1` units of fuel always suffice. -/
def natDigitsGo (fuel : Nat) (n : Nat) : List Nat :=
  match fuel with
  | 0 => []
  | f + 1 => if n < 10 then [48 + n] else natDigitsGo f (n / 10) ++ [48 + n % 10]

/-- Python `str(n)` for a natural number. -/
def natDigits (n : Nat) : List Nat := natDigitsGo (n + 1) n

/-- Python `str(v)` for an integer (a leading `'-'` when negative). -/
def intStr (v : Int) : List Nat :=
  if v < 0 then 45 :: natDigits v.natAbs else natDigits v.toNat

/-- Python `int(s)` on a string of ASCII decimal digits. -/
def digitsToNat (s : List Nat) : Nat :=
  s.foldl (fun a c => a * 10 + (c - 48)) 0

/-- Python `s.isdigit()` restricted to ASCII digits: nonempty and all
characters in `'0'..'9'`. -/
def isdigit (s : List Nat) : Bool :=
  !s.isEmpty && s.all (fun c => decide (48 ≤ c ∧ c ≤ 57))

/-- `usi_to_uci_square`: `col = 8 - (sq[0] - '1')`, `row = 8 - (sq[1] - 'a')`,
result `chr('a' + col) ++ chr('1' + row)`; `none` when the string is too
short (IndexError) or a `chr` argument is out of range (ValueError). -/
def usi_to_uci_square (square : List Nat) : Option (List Nat) :=
  match square with
  | c0 :: c1 :: _ =>
    let col : Int := 8 - ((c0 : Int) - 49)
    let row : Int := 8 - ((c1 : Int) - 97)
    match pyChr (97 + col), pyChr (49 + row) with
    | some a, some b => some [a, b]
    | _, _ => none
  | _ => none

/-- `uci_to_usi_square`: `col = 8 - (sq[0] - 'a')`, `row = 8 - (sq[1] - '1')`,
result `chr('1' + col) ++ chr('a' + row)`. -/
def uci_to_usi_square (square : List Nat) : Option (List Nat) :=
  match square with
  | c0 :: c1 :: _ =>
    let col : Int := 8 - ((c0 : Int) - 97)
    let row : Int := 8 - ((c1 : Int) - 49)
    match pyChr (49 + col), pyChr (97 + row) with
    | some a, some b => some [a, b]
    | _, _ => none
  | _ => none

/-- Body of the `try` block of `usi_to_uci_move`: `none` models a raised
(and later swallowed) exception.  `move[1] == '*'` (42) marks a drop, which
becomes `piece ++ '@' (64) ++ transformed destination ++ suffix`; a normal
move transforms both squares and keeps the suffix `move[4:]`. -/
def usi_to_uci_moveCore (move : List Nat) : Option (List Nat) :=
  match move with
  | c0 :: c1 :: _ =>
    let sq_from := move.take 2
    let sq_to := (move.drop 2).take 2
    if c1 = 42 then
      match usi_to_uci_square sq_to with
      | some sq => some (c0 :: 64 :: (sq ++ move.drop 4))
      | none => none
    else
      match usi_to_uci_square sq_from, usi_to_uci_square sq_to with
      | some f, some t => some (f ++ t ++ move.drop 4)
      | _, _ => none
  | _ => none

/-- `usi_to_uci_move`: the `'0000'` null move passes through; on any parse
failure the original token is returned (the `except` branch). -/
def usi_to_uci_move (move : List Nat) : List Nat :=
  if move = [48, 48, 48, 48] then move
  else
    match usi_to_uci_moveCore move with
    | some out => out
    | none => move

/-- Body of the `try` block of `uci_to_usi_move`: `move[1] == '@'` (64)
marks a drop, re-emitted with the `'*'` (42) marker. -/
def uci_to_usi_moveCore (move : List Nat) : Option (List Nat) :=
  match move with
  | c0 :: c1 :: _ =>
    let sq_from := move.take 2
    let sq_to := (move.drop 2).take 2
    if c1 = 64 then
      match uci_to_usi_square sq_to with
      | some sq => some (c0 :: 42 :: (sq ++ move.drop 4))
      | none => none
    else
      match uci_to_usi_square sq_from, uci_to_usi_square sq_to with
      | some f, some t => some (f ++ t ++ move.drop 4)
      | _, _ => none
  | _ => none

/-- `uci_to_usi_move`: null move passes through; parse failure returns the
original token. -/
def uci_to_usi_move (move : List Nat) : List Nat :=
  if move = [48, 48, 48, 48] then move
  else
    match uci_to_usi_moveCore move with
    | some out => out
    | none => move

example : usi_to_uci_square [53, 101] = some [101, 53] := by decide
example : usi_to_uci_move [80, 42, 53, 101] = [80, 64, 101, 53] := by decide
example : uci_to_usi_move [101, 50, 101, 52] = [53, 104, 53, 102] := by decide

/-! Protocol token constants (codepoint lists of the literal strings in the
source). -/

/-- `'position'` -/
def strPosition : List Nat := [112, 111, 115, 105, 116, 105, 111, 110]

/-- `'sfen'` -/
def strSfen : List Nat := [115, 102, 101, 110]

/-- `'fen'` -/
def strFenTok : List Nat := [102, 101, 110]

/-- `'moves'` -/
def strMoves : List Nat := [109, 111, 118, 101, 115]

/-- `'uci'` -/
def strUci : List Nat := [117, 99, 105]

/-- `'usi'` -/
def strUsi : List Nat := [117, 115, 105]

/-- `'ucinewgame'` -/
def strUcinewgame : List Nat := [117, 99, 105, 110, 101, 119, 103, 97, 109, 101]

/-- `'usinewgame'` -/
def strUsinewgame : List Nat := [117, 115, 105, 110, 101, 119, 103, 97, 109, 101]

/-- `'setoption'` -/
def strSetoption : List Nat := [115, 101, 116, 111, 112, 116, 105, 111, 110]

/-- `'usiok'` -/
def strUsiok : List Nat := [117, 115, 105, 111, 107]

/-- `'uciok'` -/
def strUciok : List Nat := [117, 99, 105, 111, 107]

/-- `'bestmove'` -/
def strBestmove : List Nat := [98, 101, 115, 116, 109, 111, 118, 101]

/-- `'info'` -/
def strInfo : List Nat := [105, 110, 102, 111]

/-- `'option'` -/
def strOption : List Nat := [111, 112, 116, 105, 111, 110]

/-- `'name'` -/
def strName : List Nat := [110, 97, 109, 101]

/-- `'value'` -/
def strValue : List Nat := [118, 97, 108, 117, 101]

/-- `'type'` -/
def strType : List Nat := [116, 121, 112, 101]

/-- `'filename'` -/
def strFilename : List Nat := [102, 105, 108, 101, 110, 97, 109, 101]

/-- `'string'` -/
def strString : List Nat := [115, 116, 114, 105, 110, 103]

/-- `'Hash'` -/
def strHash : List Nat := [72, 97, 115, 104]

/-- `'USI_Hash'` -/
def strUSIHash : List Nat := [85, 83, 73, 95, 72, 97, 115, 104]

/-- `'UCI_Variant'` -/
def strUCIVariant : List Nat := [85, 67, 73, 95, 86, 97, 114, 105, 97, 110, 116]

/-- `'USI_Variant'` -/
def strUSIVariant : List Nat := [85, 83, 73, 95, 86, 97, 114, 105, 97, 110, 116]

/-- `'mate'` -/
def strMate : List Nat := [109, 97, 116, 101]

/-- `USI_INFO_KEYWORDS`: depth, seldepth, time, nodes, pv, multipv, score,
cp, mate, lowerbound, upperbound, currmove, currmovenumber, hashfull, nps,
cpuload, string, refutation, currline. -/
def USI_INFO_KEYWORDS : List (List Nat) :=
  [[100, 101, 112, 116, 104],
   [115, 101, 108, 100, 101, 112, 116, 104],
   [116, 105, 109, 101],
   [110, 111, 100, 101, 115],
   [112, 118],
   [109, 117, 108, 116, 105, 112, 118],
   [115, 99, 111, 114, 101],
   [99, 112],
   strMate,
   [108, 111, 119, 101, 114, 98, 111, 117, 110, 100],
   [117, 112, 112, 101, 114, 98, 111, 117, 110, 100],
   [99, 117, 114, 114, 109, 111, 118, 101],
   [99, 117, 114, 114, 109, 111, 118, 101, 110, 117, 109, 98, 101, 114],
   [104, 97, 115, 104, 102, 117, 108, 108],
   [110, 112, 115],
   [99, 112, 117, 108, 111, 97, 100],
   strString,
   [114, 101, 102, 117, 116, 97, 116, 105, 111, 110],
   [99, 117, 114, 114, 108, 105, 110, 101]]

/-- `USI_INFO_MOVE_KEYWORDS`: pv, currmove, refutation, currline. -/
def USI_INFO_MOVE_KEYWORDS : List (List Nat) :=
  [[112, 118],
   [99, 117, 114, 114, 109, 111, 118, 101],
   [114, 101, 102, 117, 116, 97, 116, 105, 111, 110],
   [99, 117, 114, 114, 108, 105, 110, 101]]

/-- `HAND_ORDER`: R B G S N L P r b g s n l p. -/
def HAND_ORDER : List Nat :=
  [82, 66, 71, 83, 78, 76, 80, 114, 98, 103, 115, 110, 108, 112]

/-- `usi_to_uci_bestmove`: commands shorter than two tokens pass through;
otherwise token 1 is replaced by its move translation. -/
def usi_to_uci_bestmove (cmd : List (List Nat)) : List (List Nat) :=
  if cmd.length < 2 then cmd
  else cmd.set 1 (usi_to_uci_move (cmd.getD 1 []))

/-- Loop body of `usi_to_uci_info`: both flags reset on any recognized info
keyword; a flagged token is translated; `'mate'` arms mate conversion (only
a diagnostic in the source), move keywords arm move conversion, `'string'`
stops scanning (the rest of the line is left untouched). -/
def infoLoop : List (List Nat) → Bool → Bool → List (List Nat)
  | [], _, _ => []
  | term :: rest, convert_move, convert_mate =>
    let cm := if term ∈ USI_INFO_KEYWORDS then false else convert_move
    let cmate := if term ∈ USI_INFO_KEYWORDS then false else convert_mate
    let term2 := if cm then usi_to_uci_move term else term
    if term = strMate then term2 :: infoLoop rest cm true
    else if term ∈ USI_INFO_MOVE_KEYWORDS then term2 :: infoLoop rest true cmate
    else if term = strString then term2 :: rest
    else term2 :: infoLoop rest cm cmate

/-- `usi_to_uci_info`: scans the whole token list (index 0 included, as the
source's `range(len(cmd))` does).  `convert_mate` is threaded but — exactly
as in the source — only ever produces a diagnostic, never a rewrite. -/
def usi_to_uci_info (cmd : List (List Nat)) : List (List Nat) :=
  infoLoop cmd false false

/-- `USI_TO_UCI_OPTIONS.get(s, s)`. -/
def usiToUciOptionName (s : List Nat) : List Nat :=
  if s = strUSIHash then strHash
  else if s = strUSIVariant then strUCIVariant
  else s

/-- `UCI_TO_USI_OPTIONS.get(s, s)`. -/
def uciToUsiOptionName (s : List Nat) : List Nat :=
  if s = strHash then strUSIHash
  else if s = strUCIVariant then strUSIVariant
  else s

/-- `usi_to_uci_option`: guard `len(cmd) < 3 or cmd[1] != 'name'`; remap
`cmd[2]` through the option-name table, then downgrade a declared
`type filename` to `type string`. -/
def usi_to_uci_option (cmd : List (List Nat)) : List (List Nat) :=
  if cmd.length < 3 ∨ cmd.getD 1 [] ≠ strName then cmd
  else
    let cmd2 := cmd.set 2 (usiToUciOptionName (cmd.getD 2 []))
    if 5 ≤ cmd2.length ∧ cmd2.getD 3 [] = strType ∧ cmd2.getD 4 [] = strFilename then
      cmd2.set 4 strString
    else cmd2

/-- Loop of `uci_to_usi_setoption`: the `'value'` token flips `name_mode`
before the append, so `'value'` itself and everything after it land in the
`after` list, everything before in the `name` list. -/
def setoptLoop : List (List Nat) → Bool → List (List Nat) × List (List Nat)
  | [], _ => ([], [])
  | term :: rest, name_mode =>
    let nm := if term = strValue then false else name_mode
    let p := setoptLoop rest nm
    if nm then (term :: p.1, p.2) else (p.1, term :: p.2)

/-- `uci_to_usi_setoption`: joins a possibly multi-word option name with
underscores (95), remaps it, and reassembles `cmd[:2] + [name] + after`. -/
def uci_to_usi_setoption (cmd : List (List Nat)) : List (List Nat) :=
  if cmd.length < 3 ∨ cmd.getD 1 [] ≠ strName then cmd
  else
    let p := setoptLoop (cmd.drop 2) true
    cmd.take 2 ++ [uciToUsiOptionName (joinChar 95 p.1)] ++ p.2

/-- The hand-count dictionary of `fen_to_sfen`: occurrences of codepoint
`piece` in the bracket contents (`defaultdict(int)` filled one character at
a time). -/
def hand_count : List Nat → Nat → Nat
  | [], _ => 0
  | c :: rest, p => hand_count rest p + if c = p then 1 else 0

/-- Serialization loop over a piece-priority list: count 1 prints the bare
letter, count > 1 prints the decimal count then the letter, count 0 prints
nothing. -/
def hand_string_aux (count : Nat → Nat) : List Nat → List Nat
  | [] => []
  | p :: rest =>
    (if count p = 1 then [p]
     else if 1 < count p then natDigits (count p) ++ [p]
     else []) ++ hand_string_aux count rest

/-- The SFEN hand serializer of `fen_to_sfen`: pieces in `HAND_ORDER`. -/
def hand_string (count : Nat → Nat) : List Nat :=
  hand_string_aux count HAND_ORDER

/-- Bracket handling of `fen_to_sfen`: when the board field contains `'['`
(91), remove every `']'` (93), split at `'['`, re-encode part 1 as the hand
(falling back to `'-'` (45) when the encoding is empty), and keep part 0 as
the board. -/
def sfen_hand_board (board0 : List Nat) : List Nat × List Nat :=
  if board0.contains 91 then
    let parts := splitChar 91 (board0.filter (fun c => c != 93))
    let hand_str := hand_string (hand_count (parts.getD 1 []))
    (parts.getD 0 [], if hand_str ≠ [] then hand_str else [45])
  else (board0, [45])

/-- Turn handling of `fen_to_sfen`: field 1, with `'w'` (119) and `'b'` (98)
swapped; empty when the field is absent. -/
def sfen_turn (cmd : List (List Nat)) : List Nat :=
  if 2 ≤ cmd.length then
    let t := cmd.getD 1 []
    if t = [119] then [98] else if t = [98] then [119] else t
  else []

/-- Move-number derivation of `fen_to_sfen`: start from `'1'`, take field 3
if it is all digits, then field 5 if it is all digits, compute
`int * 2 - 1`, add 1 when the (already swapped) turn is `'w'`, and render
the result.  Over ASCII digits the `int()` conversion cannot fail, so the
source's catch-all `except` is unreachable. -/
def sfen_move_num (cmd : List (List Nat)) (turn : List Nat) : List Nat :=
  let m1 := if 4 ≤ cmd.length ∧ isdigit (cmd.getD 3 []) then cmd.getD 3 [] else [49]
  let m2 := if 6 ≤ cmd.length ∧ isdigit (cmd.getD 5 []) then cmd.getD 5 [] else m1
  let v : Int := (digitsToNat m2 : Int) * 2 - 1
  let v2 := if turn = [119] then v + 1 else v
  intStr v2

/-- `fen_to_sfen`: split on spaces, separate board and hand, swap the turn,
derive the move number, and join `board turn hand move_num`. -/
def fen_to_sfen (fen : List Nat) : List Nat :=
  let cmd := splitChar 32 fen
  let bh := sfen_hand_board (cmd.getD 0 [])
  let turn := sfen_turn cmd
  joinChar 32 [bh.1, turn, bh.2, sfen_move_num cmd turn]

/-- Loop of `uci_to_usi_position` over `cmd[1:]`, carrying the output
tokens, the buffered FEN payload, and the two mode flags.  A `'fen'` token
emits `'sfen'` and starts buffering; a `'moves'` token flushes the buffer
through `fen_to_sfen` (as a single token) and switches to move translation;
a leftover buffer is flushed at the end. -/
def posLoop : List (List Nat) → List (List Nat) → List (List Nat) → Bool → Bool → List (List Nat)
  | [], out, fen, _, _ =>
    if 0 < fen.length then out ++ [fen_to_sfen (joinChar 32 fen)] else out
  | term :: rest, out, fen, fen_mode, move_mode =>
    if term = strFenTok then
      posLoop rest (out ++ [strSfen]) fen true false
    else if term = strMoves then
      let out2 := if 0 < fen.length then out ++ [fen_to_sfen (joinChar 32 fen)] else out
      posLoop rest (out2 ++ [strMoves]) [] false true
    else if fen_mode then
      posLoop rest out (fen ++ [term]) fen_mode move_mode
    else if move_mode then
      posLoop rest (out ++ [uci_to_usi_move term]) fen fen_mode move_mode
    else
      posLoop rest (out ++ [term]) fen fen_mode move_mode

/-- `uci_to_usi_position`: commands shorter than three tokens pass through;
otherwise the output starts with the literal `'position'` and the loop runs
over `cmd[1:]`. -/
def uci_to_usi_position (cmd : List (List Nat)) : List (List Nat) :=
  if cmd.length < 3 then cmd
  else posLoop (cmd.drop 1) [strPosition] [] false false

/-- `usi_to_uci` dispatch: usiok, bestmove, info, option; any other verb
passes through.  The source would raise on an empty command list, but the
line pump always produces at least one token; the `[]` case here is
unreachable in context. -/
def usi_to_uci (cmd : List (List Nat)) : List (List Nat) :=
  match cmd with
  | [] => []
  | verb :: rest =>
    if verb = strUsiok then strUciok :: rest
    else if verb = strBestmove then usi_to_uci_bestmove (verb :: rest)
    else if verb = strInfo then usi_to_uci_info (verb :: rest)
    else if verb = strOption then usi_to_uci_option (verb :: rest)
    else verb :: rest

/-- `uci_to_usi` dispatch: uci, ucinewgame, setoption, position; any other
verb passes through. -/
def uci_to_usi (cmd : List (List Nat)) : List (List Nat) :=
  match cmd with
  | [] => []
  | verb :: rest =>
    if verb = strUci then strUsi :: rest
    else if verb = strUcinewgame then strUsinewgame :: rest
    else if verb = strSetoption then uci_to_usi_setoption (verb :: rest)
    else if verb = strPosition then uci_to_usi_position (verb :: rest)
    else verb :: rest

example : fen_to_sfen [120, 32, 98] = [120, 32, 119, 32, 45, 32, 50] := by decide
example :
    fen_to_sfen [120, 32, 98, 32, 99, 32, 100, 32, 48, 32, 51]
      = [120, 32, 119, 32, 45, 32, 54] := by decide
example : hand_string (hand_count [82, 82, 80]) = [50, 82, 80] := by decide
example : hand_string (hand_count [50, 82, 80]) = [82, 80] := by decide
example :
    uci_to_usi [strPosition, strFenTok, [56], [119], [45], [45], [48], [49],
      strMoves, [101, 50, 101, 52]]
      = [strPosition, strSfen, [56, 32, 98, 32, 45, 32, 49], strMoves,
         [53, 104, 53, 102]] := by decide

/-! Helper lemmas about the split/join and counting primitives. -/

theorem splitChar_ne_nil (sep : Nat) (s : List Nat) : splitChar sep s ≠ [] := by
  cases s with
  | nil => simp [splitChar]
  | cons c rest =>
    simp only [splitChar]
    split
    · simp
    · split <;> simp

theorem splitChar_no_sep (sep : Nat) (s : List Nat) (h : sep ∉ s) :
    splitChar sep s = [s] := by
  induction s with
  | nil => rfl
  | cons c rest ih =>
    have hc : c ≠ sep := fun e => h (by simp [e])
    have hr : splitChar sep rest = [rest] :=
      ih (fun hm => h (List.mem_cons_of_mem _ hm))
    simp [splitChar, hr, hc]

theorem splitChar_append (sep : Nat) (a r : List Nat) (h : sep ∉ a) :
    splitChar sep (a ++ sep :: r) = a :: splitChar sep r := by
  induction a with
  | nil =>
    simp only [List.nil_append, splitChar]
    cases hs : splitChar sep r with
    | nil => exact absurd hs (splitChar_ne_nil sep r)
    | cons hd tl => simp
  | cons c a2 ih =>
    have hc : c ≠ sep := fun e => h (by simp [e])
    have ih2 := ih (fun hm => h (List.mem_cons_of_mem _ hm))
    simp [splitChar, ih2, hc]

theorem joinChar_flatten (sep : Nat) (ys zs : List (List Nat)) (h : ys ≠ []) :
    joinChar sep (joinChar sep ys :: zs) = joinChar sep (ys ++ zs) := by
  induction ys with
  | nil => cases h rfl
  | cons y ys2 ih =>
    cases ys2 with
    | nil => cases zs <;> simp [joinChar]
    | cons y2 t =>
      cases zs with
      | nil => simp [joinChar]
      | cons z zs2 =>
        have ih2 := ih (by simp)
        calc joinChar sep (joinChar sep (y :: y2 :: t) :: z :: zs2)
            = (y ++ sep :: joinChar sep (y2 :: t)) ++ sep :: joinChar sep (z :: zs2) := rfl
          _ = y ++ sep :: (joinChar sep (y2 :: t) ++ sep :: joinChar sep (z :: zs2)) := by
              simp [List.append_assoc]
          _ = y ++ sep :: joinChar sep (joinChar sep (y2 :: t) :: z :: zs2) := rfl
          _ = y ++ sep :: joinChar sep ((y2 :: t) ++ z :: zs2) := by rw [ih2]
          _ = joinChar sep ((y :: y2 :: t) ++ z :: zs2) := rfl

theorem splitChar_joinChar (sep : Nat) (parts : List (List Nat)) (hne : parts ≠ [])
    (h : ∀ p ∈ parts, sep ∉ p) :
    splitChar sep (joinChar sep parts) = parts := by
  induction parts with
  | nil => cases hne rfl
  | cons x rest ih =>
    cases rest with
    | nil => exact splitChar_no_sep sep x (h x (by simp))
    | cons y t =>
      have hx : sep ∉ x := h x (by simp)
      have step : joinChar sep (x :: y :: t) = x ++ sep :: joinChar sep (y :: t) := rfl
      rw [step, splitChar_append sep x _ hx,
        ih (by simp) (fun p hp => h p (List.mem_cons_of_mem _ hp))]

theorem hand_count_filter (pred : Nat → Bool) (p : Nat) (hp : pred p = true)
    (l : List Nat) : hand_count (l.filter pred) p = hand_count l p := by
  induction l with
  | nil => rfl
  | cons c rest ih =>
    by_cases hc : c = p
    · subst hc; simp [List.filter_cons, hp, hand_count, ih]
    · cases hpc : pred c <;> simp [List.filter_cons, hpc, hand_count, ih, hc]

theorem hand_string_aux_congr (c1 c2 : Nat → Nat) (l : List Nat)
    (h : ∀ p ∈ l, c1 p = c2 p) : hand_string_aux c1 l = hand_string_aux c2 l := by
  induction l with
  | nil => rfl
  | cons p rest ih =>
    have hp := h p (by simp)
    have ih2 := ih (fun q hq => h q (by simp [hq]))
    simp [hand_string_aux, hp, ih2]

theorem sfen_turn_eq_w (cmd : List (List Nat)) (h2 : 2 ≤ cmd.length) :
    sfen_turn cmd = [119] ↔ cmd.getD 1 [] = [98] := by
  simp only [sfen_turn, if_pos h2]
  split_ifs with hw hb
  · exact iff_of_false (by decide)
      (fun hc => by rw [hc] at hw; exact absurd hw (by decide))
  · exact iff_of_true rfl hb
  · exact iff_of_false hw hb

theorem usi_moveCore_short (move : List Nat) (h : move.length < 4) :
    usi_to_uci_moveCore move = none := by
  match move with
  | [] => rfl
  | [a] => rfl
  | [a, b] =>
    simp only [usi_to_uci_moveCore]
    split <;> (split <;> simp_all [usi_to_uci_square])
  | [a, b, c] =>
    simp only [usi_to_uci_moveCore]
    split <;> (split <;> simp_all [usi_to_uci_square])
  | a :: b :: c :: d :: t => simp at h; omega

theorem uci_moveCore_short (move : List Nat) (h : move.length < 4) :
    uci_to_usi_moveCore move = none := by
  match move with
  | [] => rfl
  | [a] => rfl
  | [a, b] =>
    simp only [uci_to_usi_moveCore]
    split <;> (split <;> simp_all [uci_to_usi_square])
  | [a, b, c] =>
    simp only [uci_to_usi_moveCore]
    split <;> (split <;> simp_all [uci_to_usi_square])
  | a :: b :: c :: d :: t => simp at h; omega

theorem joinChar_cons_cons (sep : Nat) (x y : List Nat) (t : List (List Nat)) :
    joinChar sep (x :: y :: t) = x ++ sep :: joinChar sep (y :: t) := rfl

theorem uci_to_usi_dispatch_position (rest : List (List Nat)) :
    uci_to_usi (strPosition :: rest) = uci_to_usi_position (strPosition :: rest) := by
  simp only [uci_to_usi]
  rw [if_neg (by decide), if_neg (by decide), if_neg (by decide)]
  simp

theorem posLoop_fen_step (rest out fen : List (List Nat)) (fm mm : Bool) :
    posLoop (strFenTok :: rest) out fen fm mm
      = posLoop rest (out ++ [strSfen]) fen true false := by
  rw [posLoop, if_pos rfl]

theorem posLoop_buffer_step (term : List Nat) (rest out fen : List (List Nat))
    (mm : Bool) (h1 : term ≠ strFenTok) (h2 : term ≠ strMoves) :
    posLoop (term :: rest) out fen true mm
      = posLoop rest out (fen ++ [term]) true mm := by
  rw [posLoop, if_neg h1, if_neg h2]
  rfl

theorem posLoop_flush_step (rest out fen : List (List Nat)) (fm mm : Bool)
    (h : 0 < fen.length) :
    posLoop (strMoves :: rest) out fen fm mm
      = posLoop rest ((out ++ [fen_to_sfen (joinChar 32 fen)]) ++ [strMoves])
          [] false true := by
  rw [posLoop, if_neg (by decide), if_pos rfl, if_pos h]

theorem posLoop_move_step (term : List Nat) (rest out fen : List (List Nat))
    (h1 : term ≠ strFenTok) (h2 : term ≠ strMoves) :
    posLoop (term :: rest) out fen false true
      = posLoop rest (out ++ [uci_to_usi_move term]) fen false true := by
  rw [posLoop, if_neg h1, if_neg h2]
  rfl

theorem posLoop_nil_step (out : List (List Nat)) (fm mm : Bool) :
    posLoop [] out [] fm mm = out := by
  rw [posLoop]
  rfl

theorem splitChar_fen_fields (board : List Nat) (hsp : (32 : Nat) ∉ board) :
    splitChar 32 (joinChar 32 [board, [119], [45], [45], [48], [49]])
      = [board, [119], [45], [45], [48], [49]] := by
  apply splitChar_joinChar
  · simp
  · intro p hp
    simp only [List.mem_cons, List.not_mem_nil, or_false] at hp
    rcases hp with rfl | rfl | rfl | rfl | rfl | rfl
    · exact hsp
    all_goals decide

theorem sfen_turn_fen_fields (board : List Nat) :
    sfen_turn [board, [119], [45], [45], [48], [49]] = [98] := by
  rw [sfen_turn, if_pos (by simp)]
  rfl

theorem sfen_move_num_fen_fields (board : List Nat) :
    sfen_move_num [board, [119], [45], [45], [48], [49]] [98] = [49] := by
  rw [sfen_move_num]
  rfl

theorem sfen_hand_board_no_bracket (board : List Nat)
    (hbr : board.contains 91 = false) :
    sfen_hand_board board = (board, [45]) := by
  unfold sfen_hand_board
  rw [if_neg (fun h => by rw [hbr] at h; exact absurd h (by decide))]

theorem fen_to_sfen_fen_fields (board : List Nat) (hsp : (32 : Nat) ∉ board)
    (hbr : board.contains 91 = false) :
    fen_to_sfen (joinChar 32 [board, [119], [45], [45], [48], [49]])
      = joinChar 32 [board, [98], [45], [49]] := by
  simp only [fen_to_sfen]
  rw [splitChar_fen_fields board hsp]
  rw [show ([board, [119], [45], [45], [48], [49]] : List (List Nat)).getD 0 []
      = board from rfl]
  rw [sfen_hand_board_no_bracket board hbr, sfen_turn_fen_fields board,
    sfen_move_num_fen_fields board]

/-! Claim theorems. -/

/-- C1, counterexample to the claim as stated: decoding the hand string
`'2RP'` through `fen_to_sfen`'s bracket-content parser (which counts every
character) yields one `'R'` — not two — and re-encoding it gives `'RP'`,
so the round trip fails. -/
theorem C1_counterexample :
    hand_count [50, 82, 80] 82 = 1 ∧ ¬ hand_count [50, 82, 80] 82 = 2 ∧
    hand_string (hand_count [50, 82, 80]) = [82, 80] := by decide

/-- C1, amended: serializing the hand multiset `{R:2, P:1}` with the
priority-ordered encoder yields `'2RP'`; the bracket-content parser that
round-trips to `{R:2, P:1}` consumes the letter-repetition string `'RRP'`
(one character per captured piece), not `'2RP'`. -/
theorem C1_hand_roundtrip_amended :
    hand_string (fun p => if p = 82 then 2 else if p = 80 then 1 else 0)
      = [50, 82, 80] ∧
    (∀ p : Nat,
        hand_count [82, 82, 80] p
          = if p = 82 then 2 else if p = 80 then 1 else 0) ∧
    hand_string (hand_count [82, 82, 80]) = [50, 82, 80] := by
  refine ⟨by decide, ?_, by decide⟩
  intro p
  by_cases h82 : p = 82
  · subst h82; decide
  · by_cases h80 : p = 80
    · subst h80; decide
    · have h82s : (82 : Nat) ≠ p := fun e => h82 e.symm
      have h80s : (80 : Nat) ≠ p := fun e => h80 e.symm
      simp [hand_count, h82, h80, h82s, h80s]

/-- C10: characters of the bracket contents outside the 14 piece letters of
`HAND_ORDER` are counted by the parser but never emitted: filtering them
out of the contents leaves the emitted hand string unchanged, and the
bracket contents `'2R'` re-encode as the single piece `'R'`. -/
theorem C10_hand_alphabet_filtering :
    (∀ contents : List Nat,
        hand_string (hand_count contents)
          = hand_string
              (hand_count (contents.filter (fun c => HAND_ORDER.contains c)))) ∧
    hand_count [50, 82] 50 = 1 ∧
    hand_string (hand_count [50, 82]) = [82] := by
  refine ⟨?_, by decide, by decide⟩
  intro contents
  unfold hand_string
  apply hand_string_aux_congr
  intro p hp
  have hmem : HAND_ORDER.contains p = true := by
    fin_cases hp <;> decide
  exact (hand_count_filter _ p hmem contents).symm

/-- C2, counterexample to the claim as stated: the position string `'x b'`
has no move-counter fields at all, yet the emitted move-number field is
`'2'`, not `'1'`, because the defaulted fullmove counter still passes
through the ply formula and the swapped side-to-move is `'w'`. -/
theorem C2_counterexample :
    fen_to_sfen [120, 32, 98] = [120, 32, 119, 32, 45, 32, 50] ∧
    sfen_move_num (splitChar 32 [120, 32, 98])
        (sfen_turn (splitChar 32 [120, 32, 98])) = [50] ∧
    ([50] : List Nat) ≠ [49] := by decide

/-- C2, amended: when both move-counter fields are absent or non-numeric
the fullmove counter defaults to 1, so the emitted move-number field is
`'1'` when the incoming side-to-move is not `'b'` and `'2'` when it is
`'b'` (the second player) — not `'1'` regardless of side. -/
theorem C2_move_number_default (fen : List Nat)
    (h3 : ¬ (4 ≤ (splitChar 32 fen).length ∧ isdigit ((splitChar 32 fen).getD 3 [])))
    (h5 : ¬ (6 ≤ (splitChar 32 fen).length ∧ isdigit ((splitChar 32 fen).getD 5 []))) :
    sfen_move_num (splitChar 32 fen) (sfen_turn (splitChar 32 fen))
      = if (splitChar 32 fen).getD 1 [] = [98] then [50] else [49] := by
  simp only [sfen_move_num]
  rw [if_neg h5, if_neg h3]
  by_cases hb : (splitChar 32 fen).getD 1 [] = [98]
  · have h2 : 2 ≤ (splitChar 32 fen).length := by
      by_contra hlt
      push_neg at hlt
      rw [List.getD_eq_default _ _ (by omega)] at hb
      exact absurd hb (by decide)
    rw [if_pos ((sfen_turn_eq_w _ h2).mpr hb), if_pos hb]
    decide
  · have hw : ¬ sfen_turn (splitChar 32 fen) = [119] := by
      intro hturn
      rcases Nat.lt_or_ge (splitChar 32 fen).length 2 with hlt | h2
      · simp only [sfen_turn, if_neg (Nat.not_le.mpr hlt)] at hturn
        exact absurd hturn (by decide)
      · exact hb ((sfen_turn_eq_w _ h2).mp hturn)
    rw [if_neg hw, if_neg hb]
    decide

/-- Witness for C2: the one-field position string `'x'` (no counters, no
side field) yields the emitted move number `'1'`. -/
theorem C2_witness :
    sfen_move_num (splitChar 32 [120]) (sfen_turn (splitChar 32 [120])) = [49] := by
  rw [C2_move_number_default [120] (by decide) (by decide)]
  decide

/-- C6: the move transforms are total and fail-soft: whenever the parsing
body fails (`none`), and in particular whenever the token is shorter than
the four characters needed for its square fields, the original token is
returned unchanged in both directions. -/
theorem C6_move_transform_fail_soft :
    (∀ move : List Nat,
        usi_to_uci_moveCore move = none → usi_to_uci_move move = move) ∧
    (∀ move : List Nat, move.length < 4 → usi_to_uci_move move = move) ∧
    (∀ move : List Nat,
        uci_to_usi_moveCore move = none → uci_to_usi_move move = move) ∧
    (∀ move : List Nat, move.length < 4 → uci_to_usi_move move = move) := by
  have h1 : ∀ move : List Nat,
      usi_to_uci_moveCore move = none → usi_to_uci_move move = move := by
    intro move h
    unfold usi_to_uci_move
    rw [h]
    split <;> rfl
  have h3 : ∀ move : List Nat,
      uci_to_usi_moveCore move = none → uci_to_usi_move move = move := by
    intro move h
    unfold uci_to_usi_move
    rw [h]
    split <;> rfl
  exact ⟨h1, fun move h => h1 move (usi_moveCore_short move h),
    h3, fun move h => h3 move (uci_moveCore_short move h)⟩

/-- Witness for C6: the one-character token `'x'` and the three-character
token `'P@5'` are too short to parse and pass through unchanged. -/
theorem C6_witness :
    usi_to_uci_move [120] = [120] ∧
    uci_to_usi_move [80, 64, 53] = [80, 64, 53] :=
  ⟨C6_move_transform_fail_soft.2.1 [120] (by decide),
   C6_move_transform_fail_soft.2.2.2 [80, 64, 53] (by decide)⟩

/-- C7: the USI drop `'P*5e'` translates to `'P@e5'` (piece kept, marker
swapped to `'@'`, destination remapped by the square transform), and
`'P@e5'` translates back to `'P*5e'`. -/
theorem C7_drop_roundtrip :
    usi_to_uci_move [80, 42, 53, 101] = [80, 64, 101, 53] ∧
    uci_to_usi_move [80, 64, 101, 53] = [80, 42, 53, 101] := by decide

/-- C8: a verb absent from the relevant dispatch table passes its command
through unchanged, in both directions. -/
theorem C8_unknown_verb_passthrough :
    (∀ (verb : List Nat) (rest : List (List Nat)),
        verb ≠ strUsiok → verb ≠ strBestmove → verb ≠ strInfo →
        verb ≠ strOption → usi_to_uci (verb :: rest) = verb :: rest) ∧
    (∀ (verb : List Nat) (rest : List (List Nat)),
        verb ≠ strUci → verb ≠ strUcinewgame → verb ≠ strSetoption →
        verb ≠ strPosition → uci_to_usi (verb :: rest) = verb :: rest) := by
  constructor <;>
    · intro verb rest h1 h2 h3 h4
      simp [usi_to_uci, uci_to_usi, h1, h2, h3, h4]

/-- Witness for C8: the command `'anything foo bar'` passes through
token-for-token in both directions. -/
theorem C8_witness :
    usi_to_uci [[97, 110, 121, 116, 104, 105, 110, 103], [102, 111, 111], [98, 97, 114]]
      = [[97, 110, 121, 116, 104, 105, 110, 103], [102, 111, 111], [98, 97, 114]] ∧
    uci_to_usi [[97, 110, 121, 116, 104, 105, 110, 103], [102, 111, 111], [98, 97, 114]]
      = [[97, 110, 121, 116, 104, 105, 110, 103], [102, 111, 111], [98, 97, 114]] :=
  ⟨C8_unknown_verb_passthrough.1 _ _ (by decide) (by decide) (by decide) (by decide),
   C8_unknown_verb_passthrough.2 _ _ (by decide) (by decide) (by decide) (by decide)⟩

/-- C9: on a best-move command with at least two tokens only token 1 is
replaced by its move translation — every other token, including a
`'ponder'` keyword and its move, is left unchanged — and a command with
fewer than two tokens is returned entirely unchanged. -/
theorem C9_bestmove_frame :
    (∀ (a b : List Nat) (t : List (List Nat)),
        usi_to_uci_bestmove (a :: b :: t) = a :: usi_to_uci_move b :: t) ∧
    (∀ cmd : List (List Nat), cmd.length < 2 → usi_to_uci_bestmove cmd = cmd) := by
  constructor
  · intro a b t
    simp [usi_to_uci_bestmove]
  · intro cmd h
    simp [usi_to_uci_bestmove, h]

/-- Witness for C9: `'bestmove 7g7f ponder 8c8d'` keeps `'ponder'` and the
ponder move unchanged while token 1 is translated, and the bare
`'bestmove'` command passes through. -/
theorem C9_witness :
    usi_to_uci_bestmove
        [strBestmove, [55, 103, 55, 102], [112, 111, 110, 100, 101, 114], [56, 99, 56, 100]]
      = [strBestmove, usi_to_uci_move [55, 103, 55, 102],
         [112, 111, 110, 100, 101, 114], [56, 99, 56, 100]] ∧
    usi_to_uci_bestmove [strBestmove] = [strBestmove] :=
  ⟨C9_bestmove_frame.1 strBestmove [55, 103, 55, 102]
      [[112, 111, 110, 100, 101, 114], [56, 99, 56, 100]],
   C9_bestmove_frame.2 [strBestmove] (by decide)⟩

/-- C3: for a position string with at least six fields whose field 5 (the
fullmove counter `f`) is numeric, the emitted move number is
`f * 2 - 1`, plus one more when the incoming side-to-move field is `'b'`
(the second player). -/
theorem C3_move_number_formula (fen : List Nat)
    (h6 : 6 ≤ (splitChar 32 fen).length)
    (hd : isdigit ((splitChar 32 fen).getD 5 []) = true) :
    sfen_move_num (splitChar 32 fen) (sfen_turn (splitChar 32 fen))
      = intStr ((digitsToNat ((splitChar 32 fen).getD 5 []) : Int) * 2 - 1
          + if (splitChar 32 fen).getD 1 [] = [98] then 1 else 0) := by
  have h2 : 2 ≤ (splitChar 32 fen).length := le_trans (by norm_num) h6
  have hc : 6 ≤ (splitChar 32 fen).length ∧ isdigit ((splitChar 32 fen).getD 5 []) = true :=
    ⟨h6, hd⟩
  simp only [sfen_move_num]
  rw [if_pos hc]
  by_cases hb : (splitChar 32 fen).getD 1 [] = [98]
  · rw [if_pos ((sfen_turn_eq_w _ h2).mpr hb), if_pos hb]
  · rw [if_neg (fun hw => hb ((sfen_turn_eq_w _ h2).mp hw)), if_neg hb, add_zero]

/-- Witness for C3: fullmove 3 with `'b'` to move yields `'6'`; fullmove 1
with `'w'` to move yields `'1'`. -/
theorem C3_witness :
    sfen_move_num (splitChar 32 [120, 32, 98, 32, 99, 32, 100, 32, 48, 32, 51])
        (sfen_turn (splitChar 32 [120, 32, 98, 32, 99, 32, 100, 32, 48, 32, 51]))
      = [54] ∧
    sfen_move_num (splitChar 32 [120, 32, 119, 32, 99, 32, 100, 32, 48, 32, 49])
        (sfen_turn (splitChar 32 [120, 32, 119, 32, 99, 32, 100, 32, 48, 32, 49]))
      = [49] := by
  constructor
  · rw [C3_move_number_formula _ (by decide) (by decide)]; decide
  · rw [C3_move_number_formula _ (by decide) (by decide)]; decide

/-- C4: on the 9x9 domains (`'1'..'9'` × `'a'..'i'` on the USI side,
`'a'..'i'` × `'1'..'9'` on the UCI side) the two square transforms are
mutually inverse. -/
theorem C4_square_transform_involutive :
    (∀ c0 c1 : Nat, 49 ≤ c0 → c0 ≤ 57 → 97 ≤ c1 → c1 ≤ 105 →
        (usi_to_uci_square [c0, c1]).bind uci_to_usi_square = some [c0, c1]) ∧
    (∀ c0 c1 : Nat, 97 ≤ c0 → c0 ≤ 105 → 49 ≤ c1 → c1 ≤ 57 →
        (uci_to_usi_square [c0, c1]).bind usi_to_uci_square = some [c0, c1]) := by
  constructor
  · intro c0 c1 h1 h2 h3 h4
    simp only [usi_to_uci_square, uci_to_usi_square, pyChr]
    rw [if_pos (by constructor <;> omega), if_pos (by constructor <;> omega)]
    simp only [Option.some_bind]
    rw [if_pos (by constructor <;> omega), if_pos (by constructor <;> omega)]
    simp only [Option.some.injEq, List.cons.injEq, and_true]
    constructor <;> omega
  · intro c0 c1 h1 h2 h3 h4
    simp only [usi_to_uci_square, uci_to_usi_square, pyChr]
    rw [if_pos (by constructor <;> omega), if_pos (by constructor <;> omega)]
    simp only [Option.some_bind]
    rw [if_pos (by constructor <;> omega), if_pos (by constructor <;> omega)]
    simp only [Option.some.injEq, List.cons.injEq, and_true]
    constructor <;> omega

/-- Witness for C4: the USI square `'5e'` and the UCI square `'e5'` both
round-trip. -/
theorem C4_witness :
    (usi_to_uci_square [53, 101]).bind uci_to_usi_square = some [53, 101] ∧
    (uci_to_usi_square [101, 53]).bind usi_to_uci_square = some [101, 53] :=
  ⟨C4_square_transform_involutive.1 53 101 (by decide) (by decide) (by decide) (by decide),
   C4_square_transform_involutive.2 101 53 (by decide) (by decide) (by decide) (by decide)⟩

/-- C5: rewriting `position fen <board> w - - 0 1 moves e2e4` in the
controller-to-engine direction yields exactly the tokens
`position sfen <board> b - 1 moves 5h5f`: verb and `fen` keyword renamed,
board passed through, side inverted to `'b'`, hand defaulted to `'-'`,
move number `'1'`, and the move `e2e4` translated to `5h5f`.  The board is
any single token (no space), without a bracketed hand suffix, and not
itself one of the `fen`/`moves` keywords. -/
theorem C5_position_rewrite (board : List Nat)
    (hsp : (32 : Nat) ∉ board) (hbr : board.contains 91 = false)
    (hfen : board ≠ strFenTok) (hmv : board ≠ strMoves) :
    splitChar 32 (joinChar 32 (uci_to_usi
        [strPosition, strFenTok, board, [119], [45], [45], [48], [49],
         strMoves, [101, 50, 101, 52]]))
      = [strPosition, strSfen, board, [98], [45], [49], strMoves,
         [53, 104, 53, 102]] := by
  have s0 : uci_to_usi
      [strPosition, strFenTok, board, [119], [45], [45], [48], [49],
       strMoves, [101, 50, 101, 52]]
      = uci_to_usi_position
          [strPosition, strFenTok, board, [119], [45], [45], [48], [49],
           strMoves, [101, 50, 101, 52]] := uci_to_usi_dispatch_position _
  have s1 : uci_to_usi_position
      [strPosition, strFenTok, board, [119], [45], [45], [48], [49],
       strMoves, [101, 50, 101, 52]]
      = posLoop [strFenTok, board, [119], [45], [45], [48], [49],
          strMoves, [101, 50, 101, 52]] [strPosition] [] false false := by
    rw [uci_to_usi_position, if_neg (by simp)]
    rfl
  have s2 : posLoop [strFenTok, board, [119], [45], [45], [48], [49],
        strMoves, [101, 50, 101, 52]] [strPosition] [] false false
      = posLoop [board, [119], [45], [45], [48], [49], strMoves, [101, 50, 101, 52]]
          [strPosition, strSfen] [] true false := posLoop_fen_step _ _ _ _ _
  have s3 : posLoop [board, [119], [45], [45], [48], [49], strMoves, [101, 50, 101, 52]]
        [strPosition, strSfen] [] true false
      = posLoop [[119], [45], [45], [48], [49], strMoves, [101, 50, 101, 52]]
          [strPosition, strSfen] [board] true false :=
    posLoop_buffer_step _ _ _ _ _ hfen hmv
  have s4 : posLoop [[119], [45], [45], [48], [49], strMoves, [101, 50, 101, 52]]
        [strPosition, strSfen] [board] true false
      = posLoop [[45], [45], [48], [49], strMoves, [101, 50, 101, 52]]
          [strPosition, strSfen] [board, [119]] true false :=
    posLoop_buffer_step _ _ _ _ _ (by decide) (by decide)
  have s5 : posLoop [[45], [45], [48], [49], strMoves, [101, 50, 101, 52]]
        [strPosition, strSfen] [board, [119]] true false
      = posLoop [[45], [48], [49], strMoves, [101, 50, 101, 52]]
          [strPosition, strSfen] [board, [119], [45]] true false :=
    posLoop_buffer_step _ _ _ _ _ (by decide) (by decide)
  have s6 : posLoop [[45], [48], [49], strMoves, [101, 50, 101, 52]]
        [strPosition, strSfen] [board, [119], [45]] true false
      = posLoop [[48], [49], strMoves, [101, 50, 101, 52]]
          [strPosition, strSfen] [board, [119], [45], [45]] true false :=
    posLoop_buffer_step _ _ _ _ _ (by decide) (by decide)
  have s7 : posLoop [[48], [49], strMoves, [101, 50, 101, 52]]
        [strPosition, strSfen] [board, [119], [45], [45]] true false
      = posLoop [[49], strMoves, [101, 50, 101, 52]]
          [strPosition, strSfen] [board, [119], [45], [45], [48]] true false :=
    posLoop_buffer_step _ _ _ _ _ (by decide) (by decide)
  have s8 : posLoop [[49], strMoves, [101, 50, 101, 52]]
        [strPosition, strSfen] [board, [119], [45], [45], [48]] true false
      = posLoop [strMoves, [101, 50, 101, 52]]
          [strPosition, strSfen] [board, [119], [45], [45], [48], [49]] true false :=
    posLoop_buffer_step _ _ _ _ _ (by decide) (by decide)
  have s9 : posLoop [strMoves, [101, 50, 101, 52]]
        [strPosition, strSfen] [board, [119], [45], [45], [48], [49]] true false
      = posLoop [[101, 50, 101, 52]]
          [strPosition, strSfen,
           fen_to_sfen (joinChar 32 [board, [119], [45], [45], [48], [49]]),
           strMoves] [] false true := posLoop_flush_step _ _ _ _ _ (by simp)
  have s10 : posLoop [[101, 50, 101, 52]]
        [strPosition, strSfen,
         fen_to_sfen (joinChar 32 [board, [119], [45], [45], [48], [49]]),
         strMoves] [] false true
      = posLoop []
          [strPosition, strSfen,
           fen_to_sfen (joinChar 32 [board, [119], [45], [45], [48], [49]]),
           strMoves, uci_to_usi_move [101, 50, 101, 52]] [] false true :=
    posLoop_move_step _ _ _ _ (by decide) (by decide)
  have s11 : posLoop []
        [strPosition, strSfen,
         fen_to_sfen (joinChar 32 [board, [119], [45], [45], [48], [49]]),
         strMoves, uci_to_usi_move [101, 50, 101, 52]] [] false true
      = [strPosition, strSfen,
         fen_to_sfen (joinChar 32 [board, [119], [45], [45], [48], [49]]),
         strMoves, uci_to_usi_move [101, 50, 101, 52]] := posLoop_nil_step _ _ _
  have hmove : uci_to_usi_move [101, 50, 101, 52] = [53, 104, 53, 102] := by decide
  rw [s0, s1, s2, s3, s4, s5, s6, s7, s8, s9, s10, s11, hmove,
    fen_to_sfen_fen_fields board hsp hbr]
  rw [joinChar_cons_cons, joinChar_cons_cons]
  rw [joinChar_flatten 32 [board, [98], [45], [49]] [strMoves, [53, 104, 53, 102]]
    (by simp)]
  rw [show ([board, [98], [45], [49]] : List (List Nat)) ++ [strMoves, [53, 104, 53, 102]]
      = [board, [98], [45], [49], strMoves, [53, 104, 53, 102]] from rfl]
  rw [← joinChar_cons_cons, ← joinChar_cons_cons]
  apply splitChar_joinChar
  · simp
  · intro p hp
    simp only [List.mem_cons, List.not_mem_nil, or_false] at hp
    rcases hp with rfl | rfl | rfl | rfl | rfl | rfl | rfl | rfl
    · decide
    · decide
    · exact hsp
    all_goals decide

/-- Witness for C5: the concrete one-square board token `'8'`. -/
theorem C5_witness :
    splitChar 32 (joinChar 32 (uci_to_usi
        [strPosition, strFenTok, [56], [119], [45], [45], [48], [49],
         strMoves, [101, 50, 101, 52]]))
      = [strPosition, strSfen, [56], [98], [45], [49], strMoves,
         [53, 104, 53, 102]] :=
  C5_position_rewrite [56] (by decide) (by decide) (by decide) (by decide)
